import Mathlib

/-
  Shallow embedding of the status-normalization, upstream-response shaping,
  route-handler status logic, and client-side polling loop of the adMat
  repository (Next.js API routes under src/app/api and the ProgressTracker
  component), together with theorems settling the specification claims.

  JavaScript truthiness matters throughout: 0, the empty string, null and
  undefined are falsy, and the routes use the || operator on such values.
  Absent JSON fields are modelled as none.
-/

namespace AdMat

/-- JS a || b where a is an optional string and b a string: undefined and
the empty string are falsy, so they fall through to b. -/
def jsOrStr (a : Option String) (b : String) : String :=
  match a with
  | some s => if s = "" then b else s
  | none => b

/-- JS a || b on two optional strings: the first truthy value, else b. -/
def jsOrOptStr (a b : Option String) : Option String :=
  match a with
  | some s => if s = "" then b else some s
  | none => b

/-- JS a || b where a is an optional number and b a number: undefined and 0
are falsy. -/
def jsOrInt (a : Option Int) (b : Int) : Int :=
  match a with
  | some n => if n = 0 then b else n
  | none => b

/-- JS a || b on two optional numbers: the first truthy value, else b. -/
def jsOrOptInt (a b : Option Int) : Option Int :=
  match a with
  | some n => if n = 0 then b else some n
  | none => b

/-- Truthiness test used by checks like if (!videoId): a string | null value
is falsy when it is null or the empty string. -/
def jsFalsyStr : Option String → Bool
  | none => true
  | some s => s = ""

/-- The four internal lifecycle tokens of the shared status union type
pending | processing | completed | failed. -/
def internalStatuses : List String :=
  ["pending", "processing", "completed", "failed"]

/-- mapSoraStatus from src/app/api/gen/route.ts, duplicated verbatim in the
progress handler bundled with src/app/api/download/route.ts: a literal
record lookup over the seven upstream tokens, with || 'pending' as the
default for any key not in the record. -/
def mapSoraStatus (status : String) : String :=
  if status = "queued" then "pending"
  else if status = "in_progress" then "processing"
  else if status = "processing" then "processing"
  else if status = "succeeded" then "completed"
  else if status = "completed" then "completed"
  else if status = "failed" then "failed"
  else if status = "cancelled" then "failed"
  else "pending"

/-- The JSON fields that the two getProgressFromSoraV2 implementations read
from the upstream response body. Fields the upstream may omit are optional. -/
structure UpstreamData where
  id : String
  status : String
  progress : Option Int
  current_step : Option String
  estimated_time_remaining : Option Int
  deriving DecidableEq, Repr

/-- The GenerationProgress object literal built by the progress handlers.
The status field is a plain string: the TypeScript union values are string
literals, and one route assigns the raw upstream token to it. -/
structure GenerationProgress where
  id : String
  progress : Int
  status : String
  currentStep : Option String
  estimatedSeconds : Option Int
  deriving DecidableEq, Repr

/-- The object literal returned by getProgressFromSoraV2 in
src/app/api/progress/route.ts: progress is data.progress || 0, and status
is data.status assigned verbatim, with no mapSoraStatus call. -/
def soraV2ProgressTransform (d : UpstreamData) : GenerationProgress :=
  { id := d.id
    progress := jsOrInt d.progress 0
    status := d.status
    currentStep := d.current_step
    estimatedSeconds := d.estimated_time_remaining }

/-- statusToProgress from the progress handler bundled with
src/app/api/download/route.ts: the coarse token-to-percentage record. -/
def statusToProgress (st : String) : Option Int :=
  if st = "queued" then some 0
  else if st = "in_progress" then some 50
  else if st = "processing" then some 50
  else if st = "succeeded" then some 100
  else if st = "completed" then some 100
  else if st = "failed" then some 0
  else none

/-- The object literal returned by getProgressFromSoraV2 in the progress
handler bundled with src/app/api/download/route.ts: progress is
data.progress || statusToProgress[data.status] || 0, status goes through
mapSoraStatus, and currentStep is data.current_step || data.status. -/
def openAIProgressTransform (d : UpstreamData) : GenerationProgress :=
  { id := d.id
    progress := jsOrInt (jsOrOptInt d.progress (statusToProgress d.status)) 0
    status := mapSoraStatus d.status
    currentStep := some (jsOrStr d.current_step d.status)
    estimatedSeconds := d.estimated_time_remaining }

/-- The JSON fields that getVideoDownloadUrlFromSoraV2 in
src/app/api/download/route.ts reads from the upstream response body. -/
structure VideoStatusData where
  status : String
  url : Option String
  video_url : Option String
  download_url : Option String
  deriving DecidableEq, Repr

/-- Outcome of getVideoDownloadUrlFromSoraV2 after a successful upstream
fetch: the resolved URL, the not-ready throw naming the current status, or
the Video URL not available throw. -/
inductive DownloadOutcome
  | ok (u : String)
  | notReady (currentStatus : String)
  | missingUrl
  deriving DecidableEq, Repr

/-- getVideoDownloadUrlFromSoraV2 in src/app/api/download/route.ts past the
HTTP error checks: throw not-ready unless the raw status is succeeded or
completed, then take data.url || data.video_url || data.download_url and
throw if that chain is falsy. -/
def getVideoDownloadUrl (d : VideoStatusData) : DownloadOutcome :=
  if d.status ≠ "succeeded" ∧ d.status ≠ "completed" then
    .notReady d.status
  else
    match jsOrOptStr (jsOrOptStr d.url d.video_url) d.download_url with
    | some u => if u = "" then .missingUrl else .ok u
    | none => .missingUrl

/-- sizeMap in callSoraV2API (src/app/api/gen/route.ts): the resolution-only
lookup. -/
def sizeMap (res : String) : Option String :=
  if res = "720p" then some "1280x720"
  else if res = "1080p" then some "1920x1080"
  else if res = "4k" then some "3840x2160"
  else none

/-- aspectRatioSizeMap in callSoraV2API (src/app/api/gen/route.ts): the
aspect-by-resolution lookup. -/
def aspectRatioSizeMap (ar res : String) : Option String :=
  if ar = "16:9" then
    if res = "720p" then some "1280x720"
    else if res = "1080p" then some "1920x1080"
    else if res = "4k" then some "3840x2160"
    else none
  else if ar = "9:16" then
    if res = "720p" then some "720x1280"
    else if res = "1080p" then some "1080x1920"
    else if res = "4k" then some "2160x3840"
    else none
  else if ar = "1:1" then
    if res = "720p" then some "720x720"
    else if res = "1080p" then some "1080x1080"
    else if res = "4k" then some "2160x2160"
    else none
  else none

/-- The size expression in callSoraV2API:
aspectRatioSizeMap[ar]?.[res] || sizeMap[res] || the default 1920x1080. -/
def computeSize (ar res : String) : String :=
  jsOrStr (jsOrOptStr (aspectRatioSizeMap ar res) (sizeMap res)) "1920x1080"

/-- An upstream HTTP exchange as a handler sees it: a parsed JSON body when
response.ok, or the non-ok HTTP status code. -/
inductive Upstream (α : Type)
  | ok (d : α)
  | httpError (code : Nat)
  deriving DecidableEq, Repr

/-- Outcome of the POST handler in src/app/api/gen/route.ts, restricted to
the observables the spec speaks about: the HTTP status of the envelope, its
success flag, and whether callSoraV2API was invoked at all. -/
structure PostOutcome where
  httpStatus : Nat
  success : Bool
  upstreamCalled : Bool
  deriving DecidableEq, Repr

/-- JS String.prototype.trim: drop leading and trailing whitespace
characters. -/
def jsTrim (s : String) : String :=
  String.mk (((s.data.dropWhile Char.isWhitespace).reverse.dropWhile
    Char.isWhitespace).reverse)

/-- The prompt validation in POST: !body.prompt || typeof body.prompt is
not string || body.prompt.trim().length === 0. A non-string or absent
prompt is modelled as none; the empty string is falsy. -/
def promptValid (p : Option String) : Bool :=
  match p with
  | none => false
  | some s =>
    if s = "" then false else if (jsTrim s).length = 0 then false else true

/-- POST in src/app/api/gen/route.ts: 400 on failed prompt validation, 500
on a missing key, otherwise callSoraV2API runs and any throw (for a non-ok
upstream response) is caught into a 500 envelope. -/
def genPOST (p : Option String) (keyConfigured : Bool) (up : Upstream Unit) :
    PostOutcome :=
  if promptValid p = false then ⟨400, false, false⟩
  else if keyConfigured = false then ⟨500, false, false⟩
  else
    match up with
    | .ok _ => ⟨200, true, true⟩
    | .httpError _ => ⟨500, false, true⟩

/-- HTTP observables of a GET route handler: envelope status code and
success flag. -/
structure RouteOutcome where
  httpStatus : Nat
  success : Bool
  deriving DecidableEq, Repr

/-- GET in src/app/api/progress/route.ts (the handler bundled with
src/app/api/download/route.ts has the same status logic): 400 when the id
query value is falsy, 500 when the key is missing, then
getProgressFromSoraV2, whose throws — including the Video not found throw
for an upstream 404 — are all caught into a 500 envelope. -/
def progressGET (videoId : Option String) (keyConfigured : Bool)
    (up : Upstream UpstreamData) : RouteOutcome :=
  if jsFalsyStr videoId then ⟨400, false⟩
  else if keyConfigured = false then ⟨500, false⟩
  else
    match up with
    | .ok _ => ⟨200, true⟩
    | .httpError _ => ⟨500, false⟩

/-- The fields of the ApiResponse envelope that the ProgressTracker
component consumes. -/
structure TrackerResponse where
  success : Bool
  data : Option GenerationProgress
  error : Option String
  deriving DecidableEq, Repr

/-- One settlement of an awaited getProgress call inside the polling loop:
the promise resolved with an envelope, or it threw with a message. -/
inductive FetchEvent
  | resolved (r : TrackerResponse)
  | threw (msg : String)
  deriving DecidableEq, Repr

/-- Observable state of the ProgressTracker component: the two useState
cells, the number of onComplete invocations, and the isCancelled closure
flag of the current effect activation. -/
structure TrackerState where
  isCancelled : Bool
  progress : Option GenerationProgress
  error : Option String
  onCompleteCount : Nat
  deriving DecidableEq, Repr

/-- Tracker state at effect activation: flag fresh, no progress, no error,
callback not yet invoked. -/
def initialTracker : TrackerState := ⟨false, none, none, 0⟩

/-- The continuation of fetchProgress in the ProgressTracker component once
its awaited call settles: the isCancelled guard right after the await, then
setProgress and the terminal-status handling on a successful envelope with
data, setError otherwise, and the guarded setError of the catch branch. -/
def handleResolution (s : TrackerState) (e : FetchEvent) : TrackerState :=
  match e with
  | .resolved r =>
    if s.isCancelled then s
    else
      match r.data with
      | some d =>
        if r.success then
          let s1 := { s with progress := some d }
          if d.status = "completed" then
            { s1 with onCompleteCount := s1.onCompleteCount + 1, isCancelled := true }
          else if d.status = "failed" then
            { s1 with error := some "Video generation failed", isCancelled := true }
          else s1
        else { s with error := some (jsOrStr r.error "Failed to fetch progress") }
      | none => { s with error := some (jsOrStr r.error "Failed to fetch progress") }
  | .threw msg => if s.isCancelled then s else { s with error := some msg }

/-- The guard at the top of fetchProgress: a cancelled activation returns
before issuing the network call, so a fetch is issued only while the flag
is clear. -/
def issuesFetch (s : TrackerState) : Bool := !s.isCancelled

/-- Sequential processing of fetch settlements within one activation: the
event loop runs each continuation in order against the current state. -/
def runEvents (s : TrackerState) (evs : List FetchEvent) : TrackerState :=
  evs.foldl handleResolution s

/-- C2: mapSoraStatus is total on strings and matches the table exactly:
queued maps to pending; in_progress and processing map to processing;
succeeded and completed map to completed; failed and cancelled map to
failed; every other string maps to pending, so no input throws. -/
theorem mapSoraStatus_table :
    mapSoraStatus "queued" = "pending" ∧
    mapSoraStatus "in_progress" = "processing" ∧
    mapSoraStatus "processing" = "processing" ∧
    mapSoraStatus "succeeded" = "completed" ∧
    mapSoraStatus "completed" = "completed" ∧
    mapSoraStatus "failed" = "failed" ∧
    mapSoraStatus "cancelled" = "failed" ∧
    ∀ s, s ≠ "queued" → s ≠ "in_progress" → s ≠ "processing" → s ≠ "succeeded" →
      s ≠ "completed" → s ≠ "failed" → s ≠ "cancelled" →
      mapSoraStatus s = "pending" := by
  refine ⟨by decide, by decide, by decide, by decide, by decide, by decide,
    by decide, ?_⟩
  intro s h1 h2 h3 h4 h5 h6 h7
  simp [mapSoraStatus, h1, h2, h3, h4, h5, h6, h7]

/-- Witness for C2 at the concrete unrecognized token weird. -/
theorem mapSoraStatus_table_witness : mapSoraStatus "weird" = "pending" :=
  mapSoraStatus_table.2.2.2.2.2.2.2 "weird" (by decide) (by decide) (by decide)
    (by decide) (by decide) (by decide) (by decide)

/-- C1: refuted by the code. The SoraV2 progress route assigns the raw
upstream status to the returned GenerationProgress, so the upstream token
queued reaches the caller unmapped and is not one of the four internal
lifecycle tokens; by contrast mapSoraStatus, used by the other three
transforms, always yields an internal token. -/
theorem soraV2StatusPassthrough :
    (soraV2ProgressTransform ⟨"v1", "queued", some 0, none, none⟩).status =
      "queued" ∧
    "queued" ∉ internalStatuses ∧
    (∀ s, mapSoraStatus s ∈ internalStatuses) := by
  refine ⟨by decide, by decide, ?_⟩
  intro s
  simp only [mapSoraStatus, internalStatuses]
  split_ifs <;> simp

/-- C3 counterexample: with an id present and the key configured, an
upstream 404 makes the progress handler answer HTTP 500, not 404. -/
theorem progressGET_unknown_id_counterexample :
    progressGET (some "v1") true (.httpError 404) = ⟨500, false⟩ ∧
    (progressGET (some "v1") true (.httpError 404)).httpStatus ≠ 404 := by
  decide

/-- C3 amended: the progress handler answers 400 when the id is missing or
empty, 500 when the key is not configured, 200 on upstream success, and 500
on every upstream HTTP error — including 404 for an id unknown upstream,
since the Video not found throw is caught into the generic 500 envelope. -/
theorem progressGET_status_spec :
    ∀ vid key (up : Upstream UpstreamData),
      (jsFalsyStr vid = true → progressGET vid key up = ⟨400, false⟩) ∧
      (jsFalsyStr vid = false → key = false →
        progressGET vid key up = ⟨500, false⟩) ∧
      (∀ d, jsFalsyStr vid = false → key = true → up = .ok d →
        progressGET vid key up = ⟨200, true⟩) ∧
      (∀ c, jsFalsyStr vid = false → key = true → up = .httpError c →
        progressGET vid key up = ⟨500, false⟩) := by
  intro vid key up
  refine ⟨?_, ?_, ?_, ?_⟩
  · intro h
    simp [progressGET, h]
  · intro h hk
    simp [progressGET, h, hk]
  · intro d h hk hup
    simp [progressGET, h, hk, hup]
  · intro c h hk hup
    simp [progressGET, h, hk, hup]

/-- Witness for C3 at a present id, a configured key, and an upstream 404. -/
theorem progressGET_status_spec_witness :
    progressGET (some "v1") true (Upstream.httpError 404) = ⟨500, false⟩ :=
  (progressGET_status_spec (some "v1") true (Upstream.httpError 404)).2.2.2 404
    (by decide) rfl rfl

/-- C7: the upstream size string comes from the aspect-by-resolution table
first, then from the resolution-only table, then defaults to 1920x1080; in
particular the three quoted example pairs evaluate as the spec states. -/
theorem computeSize_fallback :
    computeSize "9:16" "720p" = "720x1280" ∧
    computeSize "unknown" "1080p" = "1920x1080" ∧
    computeSize "16:9" "unknown" = "1920x1080" ∧
    (∀ ar res s, aspectRatioSizeMap ar res = some s → computeSize ar res = s) ∧
    (∀ ar res s, aspectRatioSizeMap ar res = none → sizeMap res = some s →
      computeSize ar res = s) ∧
    (∀ ar res, aspectRatioSizeMap ar res = none → sizeMap res = none →
      computeSize ar res = "1920x1080") := by
  refine ⟨by decide, by decide, by decide, ?_, ?_, ?_⟩
  · intro ar res s h
    unfold aspectRatioSizeMap at h
    split_ifs at h <;> injection h with h <;> subst h <;>
      simp_all [computeSize, aspectRatioSizeMap, sizeMap, jsOrOptStr, jsOrStr]
  · intro ar res s h1 h2
    unfold sizeMap at h2
    split_ifs at h2 <;> injection h2 with h2 <;> subst h2 <;>
      simp_all [computeSize, sizeMap, jsOrOptStr, jsOrStr]
  · intro ar res h1 h2
    simp [computeSize, h1, h2, jsOrOptStr, jsOrStr]

/-- Witness for C7 at the concrete pair 1:1 and 4k from the first table. -/
theorem computeSize_fallback_witness : computeSize "1:1" "4k" = "2160x2160" :=
  computeSize_fallback.2.2.2.1 "1:1" "4k" "2160x2160" (by decide)

/-- C8: when the upstream supplies no progress value, the derived progress
follows the coarse status table: queued 0, in_progress and processing 50,
succeeded and completed 100, failed 0, and 0 for any other token. -/
theorem statusProgressHeuristic :
    ∀ d : UpstreamData, d.progress = none →
      ((d.status = "queued" → (openAIProgressTransform d).progress = 0) ∧
       (d.status = "in_progress" → (openAIProgressTransform d).progress = 50) ∧
       (d.status = "processing" → (openAIProgressTransform d).progress = 50) ∧
       (d.status = "succeeded" → (openAIProgressTransform d).progress = 100) ∧
       (d.status = "completed" → (openAIProgressTransform d).progress = 100) ∧
       (d.status = "failed" → (openAIProgressTransform d).progress = 0) ∧
       (d.status ≠ "queued" → d.status ≠ "in_progress" →
        d.status ≠ "processing" → d.status ≠ "succeeded" →
        d.status ≠ "completed" → d.status ≠ "failed" →
        (openAIProgressTransform d).progress = 0)) := by
  intro d hp
  refine ⟨?_, ?_, ?_, ?_, ?_, ?_, ?_⟩
  · intro h
    simp [openAIProgressTransform, hp, h, statusToProgress, jsOrOptInt, jsOrInt]
  · intro h
    simp [openAIProgressTransform, hp, h, statusToProgress, jsOrOptInt, jsOrInt]
  · intro h
    simp [openAIProgressTransform, hp, h, statusToProgress, jsOrOptInt, jsOrInt]
  · intro h
    simp [openAIProgressTransform, hp, h, statusToProgress, jsOrOptInt, jsOrInt]
  · intro h
    simp [openAIProgressTransform, hp, h, statusToProgress, jsOrOptInt, jsOrInt]
  · intro h
    simp [openAIProgressTransform, hp, h, statusToProgress, jsOrOptInt, jsOrInt]
  · intro h1 h2 h3 h4 h5 h6
    simp [openAIProgressTransform, hp, statusToProgress, jsOrOptInt, jsOrInt,
      h1, h2, h3, h4, h5, h6]

/-- Witness for C8 at an in_progress record with no progress field. -/
theorem statusProgressHeuristic_witness :
    (openAIProgressTransform ⟨"v1", "in_progress", none, none, none⟩).progress =
      50 :=
  (statusProgressHeuristic ⟨"v1", "in_progress", none, none, none⟩ rfl).2.1 rfl

/-- C10: a progress value of exactly 0 is falsy, so it behaves like an
absent one in both progress transforms: with progress 0 and status
in_progress the derived progress is 50, and the SoraV2 transform returns 0
whenever progress is missing or zero. -/
theorem zeroProgressFalsy :
    (openAIProgressTransform ⟨"v1", "in_progress", some 0, none, none⟩).progress =
      50 ∧
    (∀ d : UpstreamData, d.progress = some 0 →
      openAIProgressTransform d =
        openAIProgressTransform { d with progress := none } ∧
      soraV2ProgressTransform d =
        soraV2ProgressTransform { d with progress := none }) ∧
    (∀ d : UpstreamData, d.progress = none ∨ d.progress = some 0 →
      (soraV2ProgressTransform d).progress = 0) := by
  refine ⟨by decide, ?_, ?_⟩
  · intro d h
    constructor
    · simp [openAIProgressTransform, h, jsOrOptInt]
    · simp [soraV2ProgressTransform, h, jsOrInt]
  · intro d h
    rcases h with h | h <;> simp [soraV2ProgressTransform, h, jsOrInt]

/-- Witness for C10 at a record carrying an explicit zero progress. -/
theorem zeroProgressFalsy_witness :
    (soraV2ProgressTransform ⟨"v1", "in_progress", some 0, none, none⟩).progress =
      0 :=
  zeroProgressFalsy.2.2 ⟨"v1", "in_progress", some 0, none, none⟩ (Or.inr rfl)

/-- The raw tokens that mapSoraStatus sends to completed are exactly
succeeded and completed, the two the download guard accepts. -/
lemma mapSoraStatus_completed_iff (st : String) :
    mapSoraStatus st = "completed" ↔ st = "succeeded" ∨ st = "completed" := by
  constructor
  · intro h
    unfold mapSoraStatus at h
    split_ifs at h <;> simp_all
  · intro h
    rcases h with h | h <;> rw [h] <;> decide

/-- C6: the download URL resolution answers not-ready, naming the raw
status, for every record whose status does not normalize to completed;
success implies the status normalizes to completed and some URL field is
present; and a completed-status record with all three URL fields absent
yields the missing-URL error. -/
theorem downloadUrlSpec :
    (∀ d : VideoStatusData, mapSoraStatus d.status ≠ "completed" →
      getVideoDownloadUrl d = .notReady d.status) ∧
    (∀ d u, getVideoDownloadUrl d = .ok u →
      mapSoraStatus d.status = "completed" ∧
      (d.url ≠ none ∨ d.video_url ≠ none ∨ d.download_url ≠ none)) ∧
    (∀ d : VideoStatusData, mapSoraStatus d.status = "completed" →
      d.url = none → d.video_url = none → d.download_url = none →
      getVideoDownloadUrl d = .missingUrl) := by
  refine ⟨?_, ?_, ?_⟩
  · intro d h
    have h1 : d.status ≠ "succeeded" := fun he => h (by rw [he]; decide)
    have h2 : d.status ≠ "completed" := fun he => h (by rw [he]; decide)
    simp [getVideoDownloadUrl, h1, h2]
  · intro d u h
    by_cases hc : d.status ≠ "succeeded" ∧ d.status ≠ "completed"
    · simp [getVideoDownloadUrl, hc] at h
    · constructor
      · rcases not_and_or.mp hc with h1 | h1
        · rw [not_not.mp h1]; decide
        · rw [not_not.mp h1]; decide
      · by_contra hall
        push_neg at hall
        obtain ⟨hu, hv, hd⟩ := hall
        unfold getVideoDownloadUrl at h
        rw [if_neg hc] at h
        simp [hu, hv, hd, jsOrOptStr] at h
  · intro d h hu hv hd
    have hc : ¬(d.status ≠ "succeeded" ∧ d.status ≠ "completed") := by
      rcases (mapSoraStatus_completed_iff d.status).mp h with h1 | h1 <;>
        simp [h1]
    unfold getVideoDownloadUrl
    rw [if_neg hc]
    simp [hu, hv, hd, jsOrOptStr]

/-- Witness for C6 at a record still in progress upstream. -/
theorem downloadUrlSpec_witness :
    getVideoDownloadUrl ⟨"in_progress", none, none, none⟩ =
      DownloadOutcome.notReady "in_progress" :=
  downloadUrlSpec.1 ⟨"in_progress", none, none, none⟩ (by decide)

/-- C9: an absent, empty, or whitespace-only prompt makes the POST handler
answer a 400 failure envelope and never reach the upstream call. -/
theorem postPromptValidation :
    ∀ p key (up : Upstream Unit),
      (p = none ∨ ∃ s, p = some s ∧ jsTrim s = "") →
      genPOST p key up = ⟨400, false, false⟩ := by
  intro p key up h
  rcases h with h | ⟨s, hp, hs⟩
  · subst h
    simp [genPOST, promptValid]
  · subst hp
    have hl : (jsTrim s).length = 0 := by rw [hs]; rfl
    have hv : promptValid (some s) = false := by simp [promptValid, hl]
    simp [genPOST, hv]

/-- Witness for C9 at a prompt of three spaces. -/
theorem postPromptValidation_witness :
    genPOST (some "   ") true (Upstream.ok ()) = ⟨400, false, false⟩ :=
  postPromptValidation (some "   ") true (Upstream.ok ())
    (Or.inr ⟨"   ", rfl, by decide⟩)

/-- A settlement arriving while the activation is cancelled leaves the
tracker state untouched: both guards of fetchProgress check the flag. -/
lemma handleResolution_cancelled (s : TrackerState) (e : FetchEvent)
    (h : s.isCancelled = true) : handleResolution s e = s := by
  cases e <;> simp [handleResolution, h]

/-- A cancelled state absorbs every whole event sequence. -/
lemma runEvents_cancelled (s : TrackerState) (evs : List FetchEvent)
    (h : s.isCancelled = true) : runEvents s evs = s := by
  induction evs with
  | nil => rfl
  | cons e evs ih =>
    have hstep : runEvents s (e :: evs) = runEvents s evs := by
      simp [runEvents, handleResolution_cancelled s e h]
    rw [hstep]
    exact ih

/-- Invariant of one polling activation: while the flag is clear the
callback has not fired, and the callback never fires more than once. -/
def TrackerInv (s : TrackerState) : Prop :=
  (s.isCancelled = false → s.onCompleteCount = 0) ∧ s.onCompleteCount ≤ 1

/-- Each settlement preserves the activation invariant. -/
lemma trackerInv_step (s : TrackerState) (e : FetchEvent)
    (h : TrackerInv s) : TrackerInv (handleResolution s e) := by
  obtain ⟨h0, h1⟩ := h
  by_cases hc : s.isCancelled = true
  · rw [handleResolution_cancelled s e hc]
    exact ⟨h0, h1⟩
  · rw [Bool.not_eq_true] at hc
    have hz : s.onCompleteCount = 0 := h0 hc
    cases e with
    | threw msg =>
      refine ⟨fun _ => ?_, ?_⟩ <;> simp [handleResolution, hc, hz]
    | resolved r =>
      cases hd : r.data with
      | none =>
        refine ⟨fun _ => ?_, ?_⟩ <;> simp [handleResolution, hc, hd, hz]
      | some d =>
        by_cases hsucc : r.success = true
        · by_cases hcomp : d.status = "completed"
          · refine ⟨?_, ?_⟩ <;>
              simp [handleResolution, hc, hd, hsucc, hcomp, hz]
          · by_cases hfail : d.status = "failed"
            · refine ⟨?_, ?_⟩ <;>
                simp [handleResolution, hc, hd, hsucc, hcomp, hfail, hz]
            · refine ⟨fun _ => ?_, ?_⟩ <;>
                simp [handleResolution, hc, hd, hsucc, hcomp, hfail, hz]
        · rw [Bool.not_eq_true] at hsucc
          refine ⟨fun _ => ?_, ?_⟩ <;>
            simp [handleResolution, hc, hd, hsucc, hz]

/-- The activation invariant holds along every event sequence. -/
lemma trackerInv_run (evs : List FetchEvent) (s : TrackerState)
    (h : TrackerInv s) : TrackerInv (runEvents s evs) := by
  induction evs generalizing s with
  | nil => exact h
  | cons e evs ih =>
    have hstep : runEvents s (e :: evs) = runEvents (handleResolution s e) evs := by
      simp [runEvents]
    rw [hstep]
    exact ih _ (trackerInv_step s e h)

/-- C4: a settlement of an in-flight fetch that arrives after the
activation was cancelled mutates nothing: the progress cell, the error
cell, and the onComplete invocation count are all unchanged. -/
theorem cancelledResolutionNoMutation (s : TrackerState) (e : FetchEvent)
    (h : s.isCancelled = true) :
    (handleResolution s e).progress = s.progress ∧
    (handleResolution s e).error = s.error ∧
    (handleResolution s e).onCompleteCount = s.onCompleteCount := by
  rw [handleResolution_cancelled s e h]
  exact ⟨rfl, rfl, rfl⟩

/-- Witness for C4 at a cancelled activation receiving a completed result. -/
theorem cancelledResolutionNoMutation_witness :
    (handleResolution ⟨true, none, none, 0⟩
        (FetchEvent.resolved
          ⟨true, some ⟨"v1", 100, "completed", none, none⟩, none⟩)).progress =
      none ∧
    (handleResolution ⟨true, none, none, 0⟩
        (FetchEvent.resolved
          ⟨true, some ⟨"v1", 100, "completed", none, none⟩, none⟩)).error =
      none ∧
    (handleResolution ⟨true, none, none, 0⟩
        (FetchEvent.resolved
          ⟨true, some ⟨"v1", 100, "completed", none, none⟩, none⟩)).onCompleteCount =
      0 :=
  cancelledResolutionNoMutation ⟨true, none, none, 0⟩
    (FetchEvent.resolved ⟨true, some ⟨"v1", 100, "completed", none, none⟩, none⟩)
    rfl

/-- C5: observing completed in an active activation fires the callback
exactly once more and cancels the activation, so no further fetch is issued
and later settlements change nothing; observing failed sets the error,
cancels, never fires the callback, and issues no further fetch; over any
activation from the initial state the callback fires at most once. -/
theorem terminalObservationSpec :
    (∀ (s : TrackerState) (r : TrackerResponse) (d : GenerationProgress),
      s.isCancelled = false → r.success = true → r.data = some d →
      d.status = "completed" →
      ((handleResolution s (.resolved r)).onCompleteCount =
          s.onCompleteCount + 1 ∧
       (handleResolution s (.resolved r)).isCancelled = true ∧
       issuesFetch (handleResolution s (.resolved r)) = false ∧
       ∀ evs, runEvents (handleResolution s (.resolved r)) evs =
         handleResolution s (.resolved r))) ∧
    (∀ (s : TrackerState) (r : TrackerResponse) (d : GenerationProgress),
      s.isCancelled = false → r.success = true → r.data = some d →
      d.status = "failed" →
      ((handleResolution s (.resolved r)).error =
          some "Video generation failed" ∧
       (handleResolution s (.resolved r)).isCancelled = true ∧
       issuesFetch (handleResolution s (.resolved r)) = false ∧
       (handleResolution s (.resolved r)).onCompleteCount = s.onCompleteCount ∧
       ∀ evs,
         (runEvents (handleResolution s (.resolved r)) evs).onCompleteCount =
           s.onCompleteCount)) ∧
    (∀ evs, (runEvents initialTracker evs).onCompleteCount ≤ 1) := by
  refine ⟨?_, ?_, ?_⟩
  · intro s r d hc hs hd hst
    have hcan : (handleResolution s (.resolved r)).isCancelled = true := by
      simp [handleResolution, hc, hd, hs, hst]
    refine ⟨?_, hcan, ?_, fun evs => runEvents_cancelled _ evs hcan⟩
    · simp [handleResolution, hc, hd, hs, hst]
    · simp [issuesFetch, hcan]
  · intro s r d hc hs hd hst
    have hcan : (handleResolution s (.resolved r)).isCancelled = true := by
      simp [handleResolution, hc, hd, hs, hst]
    have hcnt : (handleResolution s (.resolved r)).onCompleteCount =
        s.onCompleteCount := by
      simp [handleResolution, hc, hd, hs, hst]
    refine ⟨?_, hcan, ?_, hcnt, fun evs => ?_⟩
    · simp [handleResolution, hc, hd, hs, hst]
    · simp [issuesFetch, hcan]
    · rw [runEvents_cancelled _ evs hcan, hcnt]
  · intro evs
    exact (trackerInv_run evs initialTracker ⟨fun _ => rfl, by decide⟩).2

/-- Witness for C5 at a fresh activation receiving a completed result. -/
theorem terminalObservationSpec_witness :
    (handleResolution initialTracker
        (FetchEvent.resolved
          ⟨true, some ⟨"v1", 100, "completed", none, none⟩, none⟩)).onCompleteCount =
      initialTracker.onCompleteCount + 1 ∧
    (handleResolution initialTracker
        (FetchEvent.resolved
          ⟨true, some ⟨"v1", 100, "completed", none, none⟩, none⟩)).isCancelled =
      true ∧
    issuesFetch
        (handleResolution initialTracker
          (FetchEvent.resolved
            ⟨true, some ⟨"v1", 100, "completed", none, none⟩, none⟩)) =
      false :=
  have h := terminalObservationSpec.1 initialTracker
    ⟨true, some ⟨"v1", 100, "completed", none, none⟩, none⟩
    ⟨"v1", 100, "completed", none, none⟩ rfl rfl rfl rfl
  ⟨h.1, h.2.1, h.2.2.1⟩

end AdMat
